import Mathlib

/-!
Shallow embedding of the gesture-recognition state machine of
`src/action-handler-directive.ts` (the `ActionHandler` custom element).

The JavaScript code is single-threaded and event-loop driven; the only
asynchronous primitives are `setTimeout`/`clearTimeout`.  We model this
faithfully:

* `AHState` carries the instance fields of the `ActionHandler` class
  (`holdTime`, `timer`, `held`, `cooldownStart`, `cooldownEnd`,
  `dblClickTimeout`), the visual hold-indicator (`style.display` /
  `style.left/top` set by `startAnimation` / `stopAnimation`), plus an
  explicit queue of pending `setTimeout` callbacks and the list of
  `action` events fired so far (each carries the single `action` field
  of the payload, a string).
* `setTimeoutAH` schedules a callback with a fresh id and an absolute
  deadline; `clearTimeoutAH` cancels by id (a no-op for `undefined` or
  for an id whose callback already ran, exactly as in JS).
* The event handlers `clickStart`, `clickEnd`, `handleEnter` and the
  document-level cancel listener (`docCancelListener`) are transcribed
  statement by statement from the source.
* `run` processes a time-ordered list of incoming DOM events: before
  each event all timer callbacks whose deadline has passed fire (in
  deadline order, ties in scheduling order, as in the JS event loop),
  and at the end the remaining timers run to quiescence (`settle`).
-/

namespace ActionHandlerSpec

/-- Of the `ActionHandlerOptions` type from `custom-card-helpers`, the
handler reads only `hasDoubleClick`; that is the field we model. -/
structure ActionHandlerOptions where
  hasDoubleClick : Bool
deriving DecidableEq, Repr

/-- The kinds of `setTimeout` callbacks the handler schedules:
the 500ms hold timer (capturing the press coordinates for
`startAnimation`), the two 100ms cooldown resets, and the 250ms delayed
single-tap emission. -/
inductive TimerKind where
  | holdFire (x y : Int)
  | cooldownStartReset
  | cooldownEndReset
  | tapFire
deriving DecidableEq, Repr

/-- A pending `setTimeout` callback: its id (the value returned by
`window.setTimeout`), its absolute deadline, and what it does. -/
structure TimerEntry where
  id : Nat
  deadline : Nat
  kind : TimerKind
deriving DecidableEq, Repr

/-- The state of one `ActionHandler` instance together with the event
loop's pending timers and the trace of fired `action` events.

`timer` and `dblClickTimeout` are the raw JS variables: `none` is
`undefined`, `some id` is a timer id — note that a fired callback does
NOT reset the variable, it merely disappears from `pending`.
`indicator` records whether `startAnimation` has shown the hold
indicator without a `stopAnimation` since; `indicatorPos` is the last
`left/top` position written.  `events` lists the `action` field of every
payload passed to `fireEvent(element, 'action', ...)`, oldest first. -/
structure AHState where
  holdTime : Nat
  timer : Option Nat
  held : Bool
  cooldownStart : Bool
  cooldownEnd : Bool
  dblClickTimeout : Option Nat
  indicator : Bool
  indicatorPos : Int × Int
  pending : List TimerEntry
  nextId : Nat
  events : List String
deriving DecidableEq, Repr

/-- The constructor of `ActionHandler`: `holdTime = 500`, no timer,
`held = false`, both cooldowns off. -/
def initState : AHState :=
  { holdTime := 500, timer := none, held := false, cooldownStart := false,
    cooldownEnd := false, dblClickTimeout := none, indicator := false,
    indicatorPos := (0, 0), pending := [], nextId := 0, events := [] }

/-- Insert a newly scheduled timer into the pending queue, keeping the
queue sorted by deadline with later-scheduled entries after
equal-deadline earlier ones (JS timers fire in deadline order, ties in
registration order). -/
def insertTimer (e : TimerEntry) : List TimerEntry → List TimerEntry
  | [] => [e]
  | f :: rest => if e.deadline < f.deadline then e :: f :: rest else f :: insertTimer e rest

/-- `window.setTimeout(cb, delay)` at absolute time `now`: schedule the
callback with a fresh id and return the id. -/
def setTimeoutAH (s : AHState) (deadline : Nat) (k : TimerKind) : AHState × Nat :=
  ({ s with pending := insertTimer ⟨s.nextId, deadline, k⟩ s.pending,
            nextId := s.nextId + 1 }, s.nextId)

/-- Remove the pending timer with the given id (ids are unique). -/
def removeTimer (i : Nat) : List TimerEntry → List TimerEntry
  | [] => []
  | f :: rest => if f.id = i then removeTimer i rest else f :: removeTimer i rest

/-- `clearTimeout(h)`: a no-op when `h` is `undefined` or when the
callback already ran; otherwise unschedules it. -/
def clearTimeoutAH (s : AHState) : Option Nat → AHState
  | none => s
  | some i => { s with pending := removeTimer i s.pending }

/-- `fireEvent(element, 'action', { action: a })`: append the payload's
single `action` field to the trace. -/
def fire (s : AHState) (a : String) : AHState :=
  { s with events := s.events ++ [a] }

/-- Run one due timer callback.  The hold timer runs
`startAnimation(x, y)` and sets `held = true` (it does not clear the
`timer` variable); the cooldown timers reset their flags; the
double-click timer fires the delayed `tap`. -/
def stepTimer (s : AHState) (e : TimerEntry) : AHState :=
  match e.kind with
  | .holdFire x y => { s with indicator := true, indicatorPos := (x, y), held := true }
  | .cooldownStartReset => { s with cooldownStart := false }
  | .cooldownEndReset => { s with cooldownEnd := false }
  | .tapFire => fire s "tap"

/-- The due prefix of the (sorted) pending queue at time `t`. -/
def dueTake (t : Nat) : List TimerEntry → List TimerEntry
  | [] => []
  | e :: rest => if e.deadline ≤ t then e :: dueTake t rest else []

/-- The not-yet-due suffix of the (sorted) pending queue at time `t`. -/
def dueDrop (t : Nat) : List TimerEntry → List TimerEntry
  | [] => []
  | e :: rest => if e.deadline ≤ t then dueDrop t rest else e :: rest

/-- Advance the event loop to time `t`: every pending callback whose
deadline has passed fires, in queue order.  (No callback of this module
schedules further callbacks, so one pass suffices.) -/
def fireDue (s : AHState) (t : Nat) : AHState :=
  (dueTake t s.pending).foldl stepTimer { s with pending := dueDrop t s.pending }

/-- Run the event loop to quiescence: fire every remaining callback. -/
def settle (s : AHState) : AHState :=
  s.pending.foldl stepTimer { s with pending := [] }

/-- The `clickStart` closure (`touchstart` / `mousedown` listener):
abort when the 100ms start-cooldown is active; otherwise reset `held`,
arm the `holdTime` (500ms) hold timer at the captured coordinates, set
the start-cooldown and schedule its 100ms reset. -/
def clickStart (s : AHState) (x y : Int) (now : Nat) : AHState :=
  if s.cooldownStart = true then s
  else
    let s1 : AHState := { s with held := false }
    let p1 := setTimeoutAH s1 (now + s1.holdTime) (.holdFire x y)
    let s2 : AHState := { p1.1 with timer := some p1.2, cooldownStart := true }
    (setTimeoutAH s2 (now + 100) .cooldownStartReset).1

/-- The `ev.type` values that can reach `clickEnd`. -/
inductive EndType where
  | touchend
  | touchcancel
  | click
  | keyup
deriving DecidableEq, Repr

/-- The `const actions = ['touchend', 'touchcancel']` list guarding
`clickEnd`. -/
def endGuardTypes : List EndType := [.touchend, .touchcancel]

/-- The `clickEnd` closure (`touchend` / `touchcancel` / `click`
listener, also reached from `handleEnter`):

* return early when the 100ms end-cooldown is active, or when the event
  is a `touchend`/`touchcancel` and `this.timer` is `undefined`;
* otherwise clear the hold timer, hide the indicator, reset `timer`;
* if `held`: fire `hold`;
* else if `options.hasDoubleClick`: on `detail === 1` or a `keyup`,
  schedule the 250ms delayed `tap`; otherwise cancel the pending
  delayed `tap` and fire `double_tap`;
* else fire `tap`;
* finally set the end-cooldown and schedule its 100ms reset. -/
def clickEnd (opts : ActionHandlerOptions) (s : AHState) (ty : EndType)
    (detail : Nat) (now : Nat) : AHState :=
  if s.cooldownEnd = true ∨ (ty ∈ endGuardTypes ∧ s.timer = none) then s
  else
    let s1 : AHState := { clearTimeoutAH s s.timer with indicator := false, timer := none }
    let s2 : AHState :=
      if s1.held = true then fire s1 "hold"
      else if opts.hasDoubleClick = true then
        if detail = 1 ∨ ty = .keyup then
          let p1 := setTimeoutAH s1 (now + 250) .tapFire
          { p1.1 with dblClickTimeout := some p1.2 }
        else
          fire (clearTimeoutAH s1 s1.dblClickTimeout) "double_tap"
      else fire s1 "tap"
    (setTimeoutAH { s2 with cooldownEnd := true } (now + 100) .cooldownEndReset).1

/-- The `handleEnter` closure (`keyup` listener): only key code 13
(enter) is forwarded to `clickEnd` (a `KeyboardEvent` has `detail = 0`).
Every other key does nothing. -/
def handleEnter (opts : ActionHandlerOptions) (s : AHState) (keyCode : Nat)
    (now : Nat) : AHState :=
  if keyCode = 13 then clickEnd opts s .keyup 0 now else s

/-- The seven document-level event names wired in `connectedCallback`. -/
def cancelClassNames : List String :=
  ["touchcancel", "mouseout", "mouseup", "touchmove", "mousewheel", "wheel", "scroll"]

/-- The document-level listener installed for every name in
`cancelClassNames`: clear the hold timer, `stopAnimation()` (hide the
indicator), set `this.timer = undefined`.  It does not touch `held`,
the cooldowns, or the double-click timer. -/
def docCancelListener (s : AHState) : AHState :=
  { clearTimeoutAH s s.timer with indicator := false, timer := none }

/-- An incoming DOM event.  A physical gesture may produce several of
these (touch events plus synthesized mouse events); `cancelClass` stands
for any of the seven document-level events of `cancelClassNames`, all of
which share one listener body. -/
inductive DomEvent where
  | touchstart (x y : Int)
  | mousedown (x y : Int)
  | touchend (detail : Nat)
  | touchcancel (detail : Nat)
  | click (detail : Nat)
  | keyup (keyCode : Nat)
  | cancelClass
deriving DecidableEq, Repr

/-- Dispatch one DOM event arriving at time `now` to its listener. -/
def handleEvent (opts : ActionHandlerOptions) (s : AHState) (ev : DomEvent)
    (now : Nat) : AHState :=
  match ev with
  | .touchstart x y => clickStart s x y now
  | .mousedown x y => clickStart s x y now
  | .touchend d => clickEnd opts s .touchend d now
  | .touchcancel d => clickEnd opts s .touchcancel d now
  | .click d => clickEnd opts s .click d now
  | .keyup k => handleEnter opts s k now
  | .cancelClass => docCancelListener s

/-- Process a time-ordered trace of DOM events: before each event the
due timer callbacks fire, then the event's listener runs. -/
def processEvents (opts : ActionHandlerOptions) (evs : List (Nat × DomEvent))
    (s : AHState) : AHState :=
  evs.foldl (fun st p => handleEvent opts (fireDue st p.1) p.2 p.1) s

/-- Run a trace from the freshly constructed handler and let every
remaining timer fire. -/
def run (opts : ActionHandlerOptions) (evs : List (Nat × DomEvent)) : AHState :=
  settle (processEvents opts evs initState)

/-- A bound target element: the `actionHandler` marker property
(`undefined`, i.e. `false`, until set) and the listeners registered on
it, by event name in registration order. -/
structure BoundElement where
  actionHandler : Bool
  listeners : List String
deriving DecidableEq, Repr

/-- An element that has never been bound. -/
def freshElement : BoundElement := { actionHandler := false, listeners := [] }

/-- The listeners `bind` registers: `contextmenu`, the touch sources and
`keyup` always; `mousedown`/`click` only when the iOS 13 dual-event
workaround is off. -/
def bindListeners (isIOS13 : Bool) : List String :=
  ["contextmenu", "touchstart", "touchend", "touchcancel", "keyup"] ++
    (if isIOS13 then [] else ["mousedown", "click"])

/-- `ActionHandler.bind(element, options)` restricted to its effect on
the element: return unchanged when the marker is already set; otherwise
set the marker and register the listeners. -/
def bind (isIOS13 : Bool) (el : BoundElement) : BoundElement :=
  if el.actionHandler = true then el
  else { actionHandler := true, listeners := el.listeners ++ bindListeners isIOS13 }

/-- Whether a pending timer is a (500ms) hold timer. -/
def isHoldTimer (e : TimerEntry) : Bool :=
  match e.kind with
  | .holdFire _ _ => true
  | _ => false

/-- The action strings the handler is allowed to emit. -/
def ValidAction (a : String) : Prop :=
  a = "tap" ∨ a = "hold" ∨ a = "double_tap"

/-- Every action fired so far is one of the three allowed kinds. -/
def GoodEvents (s : AHState) : Prop :=
  ∀ a ∈ s.events, ValidAction a

/- Helper lemmas (shared; none of them is a claim's theorem). -/

theorem processEvents_append (opts : ActionHandlerOptions)
    (l1 l2 : List (Nat × DomEvent)) (s : AHState) :
    processEvents opts (l1 ++ l2) s = processEvents opts l2 (processEvents opts l1 s) := by
  simp [processEvents, List.foldl_append]

theorem clearTimeoutAH_held (s : AHState) (o : Option Nat) :
    (clearTimeoutAH s o).held = s.held := by
  cases o <;> rfl

theorem clearTimeoutAH_events (s : AHState) (o : Option Nat) :
    (clearTimeoutAH s o).events = s.events := by
  cases o <;> rfl

theorem fire_good (s : AHState) (a : String) (hs : GoodEvents s) (ha : ValidAction a) :
    GoodEvents (fire s a) := by
  intro b hb
  simp only [fire, List.mem_append, List.mem_singleton] at hb
  rcases hb with hb | hb
  · exact hs b hb
  · exact hb ▸ ha

theorem stepTimer_good (s : AHState) (e : TimerEntry) (hs : GoodEvents s) :
    GoodEvents (stepTimer s e) := by
  rcases e with ⟨i, d, k⟩
  cases k with
  | holdFire x y => exact hs
  | cooldownStartReset => exact hs
  | cooldownEndReset => exact hs
  | tapFire => exact fire_good s "tap" hs (Or.inl rfl)

theorem foldl_stepTimer_good (l : List TimerEntry) :
    ∀ s : AHState, GoodEvents s → GoodEvents (l.foldl stepTimer s) := by
  induction l with
  | nil => intro s hs; exact hs
  | cons e rest ih =>
      intro s hs
      exact ih (stepTimer s e) (stepTimer_good s e hs)

theorem goodEvents_of_eq_events (s t : AHState) (h : t.events = s.events)
    (hs : GoodEvents s) : GoodEvents t := by
  intro a ha
  exact hs a (h ▸ ha)

theorem fireDue_good (s : AHState) (t : Nat) (hs : GoodEvents s) :
    GoodEvents (fireDue s t) :=
  foldl_stepTimer_good _ _ hs

theorem settle_good (s : AHState) (hs : GoodEvents s) : GoodEvents (settle s) :=
  foldl_stepTimer_good _ _ hs

theorem clickStart_good (s : AHState) (x y : Int) (now : Nat) (hs : GoodEvents s) :
    GoodEvents (clickStart s x y now) := by
  unfold clickStart
  split
  · exact hs
  · exact goodEvents_of_eq_events s _ rfl hs

theorem clickEnd_events_cases (opts : ActionHandlerOptions) (s : AHState) (ty : EndType)
    (detail now : Nat) :
    (clickEnd opts s ty detail now).events = s.events ∨
    (clickEnd opts s ty detail now).events = s.events ++ ["hold"] ∨
    (clickEnd opts s ty detail now).events = s.events ++ ["tap"] ∨
    (clickEnd opts s ty detail now).events = s.events ++ ["double_tap"] := by
  by_cases hg : s.cooldownEnd = true ∨ (ty ∈ endGuardTypes ∧ s.timer = none)
  · left
    simp [clickEnd, hg]
  · by_cases hh : s.held = true
    · right; left
      simp [clickEnd, hg, hh, fire, setTimeoutAH, clearTimeoutAH_events, clearTimeoutAH_held]
    · by_cases hdbl : opts.hasDoubleClick = true
      · by_cases hfirst : detail = 1 ∨ ty = EndType.keyup
        · left
          simp [clickEnd, hg, hh, hdbl, hfirst, fire, setTimeoutAH, clearTimeoutAH_events,
            clearTimeoutAH_held]
        · right; right; right
          simp [clickEnd, hg, hh, hdbl, hfirst, fire, setTimeoutAH, clearTimeoutAH_events,
            clearTimeoutAH_held]
      · right; right; left
        simp [clickEnd, hg, hh, hdbl, fire, setTimeoutAH, clearTimeoutAH_events,
          clearTimeoutAH_held]

theorem clickEnd_good (opts : ActionHandlerOptions) (s : AHState) (ty : EndType)
    (detail now : Nat) (hs : GoodEvents s) : GoodEvents (clickEnd opts s ty detail now) := by
  rcases clickEnd_events_cases opts s ty detail now with h | h | h | h
  · exact goodEvents_of_eq_events s _ h hs
  · exact goodEvents_of_eq_events _ _ h (fire_good s "hold" hs (Or.inr (Or.inl rfl)))
  · exact goodEvents_of_eq_events _ _ h (fire_good s "tap" hs (Or.inl rfl))
  · exact goodEvents_of_eq_events _ _ h (fire_good s "double_tap" hs (Or.inr (Or.inr rfl)))

theorem handleEvent_good (opts : ActionHandlerOptions) (s : AHState) (ev : DomEvent)
    (now : Nat) (hs : GoodEvents s) : GoodEvents (handleEvent opts s ev now) := by
  cases ev with
  | touchstart x y => exact clickStart_good s x y now hs
  | mousedown x y => exact clickStart_good s x y now hs
  | touchend d => exact clickEnd_good opts s .touchend d now hs
  | touchcancel d => exact clickEnd_good opts s .touchcancel d now hs
  | click d => exact clickEnd_good opts s .click d now hs
  | keyup k =>
      show GoodEvents (handleEnter opts s k now)
      unfold handleEnter
      split
      · exact clickEnd_good opts s .keyup 0 now hs
      · exact hs
  | cancelClass =>
      show GoodEvents (docCancelListener s)
      exact goodEvents_of_eq_events s _ (clearTimeoutAH_events s s.timer) hs

theorem processEvents_good (opts : ActionHandlerOptions) (evs : List (Nat × DomEvent)) :
    ∀ s : AHState, GoodEvents s → GoodEvents (processEvents opts evs s) := by
  induction evs with
  | nil => intro s hs; exact hs
  | cons p rest ih =>
      intro s hs
      have h1 : GoodEvents (handleEvent opts (fireDue s p.1) p.2 p.1) :=
        handleEvent_good opts (fireDue s p.1) p.2 p.1 (fireDue_good s p.1 hs)
      simpa [processEvents, List.foldl_cons] using ih _ h1

/-- C9: every notification the recognizer dispatches on a bound element
carries a payload whose single action field is one of exactly `tap`,
`hold`, or `double_tap`; no other action kind is ever emitted by any
execution path (any DOM event trace, timers included). -/
theorem claim9_action_kinds (opts : ActionHandlerOptions) (evs : List (Nat × DomEvent))
    (a : String) (ha : a ∈ (run opts evs).events) : ValidAction a := by
  have h0 : GoodEvents initState := by
    intro b hb
    simp [initState] at hb
  exact settle_good _ (processEvents_good opts evs initState h0) a ha

/-- Witness for C9: the trace of a plain touch tap fires `tap`, which is
a valid action kind. -/
theorem claim9_action_kinds_witness :
    "tap" ∈ (run ⟨false⟩ [(0, .touchstart 1 2), (80, .touchend 0)]).events ∧
    ValidAction "tap" := by
  refine ⟨by decide, ?_⟩
  exact claim9_action_kinds ⟨false⟩ [(0, .touchstart 1 2), (80, .touchend 0)] "tap" (by decide)

/-- C4: `bind(element, options)` is idempotent: if the element already
carries the `actionHandler` marker, a second `bind` returns without
effect; otherwise it sets the marker and registers the listeners, so
binding twice registers listeners only once. -/
theorem claim4_bind_idempotent (b : Bool) (el : BoundElement) :
    bind b (bind b el) = bind b el ∧
    (bind b el).actionHandler = true ∧
    (el.actionHandler = true → bind b el = el) ∧
    (el.actionHandler = false →
      bind b el = { actionHandler := true, listeners := el.listeners ++ bindListeners b }) := by
  rcases el with ⟨m, ls⟩
  cases m <;> simp [bind]

/-- Witness for C4: binding a fresh element twice equals binding it
once; a marked element is returned unchanged; a fresh element gets the
marker and the listener list. -/
theorem claim4_bind_witness :
    bind false (bind false freshElement) = bind false freshElement ∧
    bind false ⟨true, ["contextmenu"]⟩ = ⟨true, ["contextmenu"]⟩ ∧
    bind false freshElement =
      { actionHandler := true, listeners := freshElement.listeners ++ bindListeners false } := by
  refine ⟨(claim4_bind_idempotent false freshElement).1, ?_, ?_⟩
  · exact (claim4_bind_idempotent false ⟨true, ["contextmenu"]⟩).2.2.1 rfl
  · exact (claim4_bind_idempotent false freshElement).2.2.2 rfl

/-- C7: a `touchend`/`touchcancel` whose `this.timer` slot is empty
(no press-start timer stored) is ignored — no notification, state
unchanged; any press-end arriving during the 100ms end-cooldown is
likewise discarded; in particular a stray `touchend` on the fresh
handler leaves it in its initial state. -/
theorem claim7_stray_end_ignored (opts : ActionHandlerOptions) (s : AHState)
    (ty : EndType) (d now t : Nat) :
    (ty ∈ endGuardTypes → s.timer = none → clickEnd opts s ty d now = s) ∧
    (s.cooldownEnd = true → clickEnd opts s ty d now = s) ∧
    run opts [(t, DomEvent.touchend d)] = initState := by
  refine ⟨?_, ?_, ?_⟩
  · intro h1 h2
    unfold clickEnd
    rw [if_pos (Or.inr ⟨h1, h2⟩)]
  · intro h
    unfold clickEnd
    rw [if_pos (Or.inl h)]
  · simp [run, processEvents, handleEvent, fireDue, dueTake, dueDrop, settle, initState,
      clickEnd, endGuardTypes]

/-- Witness for C7: a stray `touchend` on the fresh handler and a
`click` during the end-cooldown are both ignored. -/
theorem claim7_stray_end_witness :
    clickEnd ⟨true⟩ initState .touchend 0 5 = initState ∧
    clickEnd ⟨true⟩ { initState with cooldownEnd := true } .click 1 7 =
      { initState with cooldownEnd := true } := by
  refine ⟨?_, ?_⟩
  · exact (claim7_stray_end_ignored ⟨true⟩ initState .touchend 0 5 0).1 (by decide) rfl
  · exact (claim7_stray_end_ignored ⟨true⟩ { initState with cooldownEnd := true }
      .click 1 7 0).2.1 rfl

/-- C8: a `keyup` with key code 13 is treated as an immediate press-end
with no prior press-start required: from the fresh handler it fires
`tap` immediately when double-click is disabled, and schedules the
250ms-delayed `tap` (same rule as a first pointer release) when
double-click is enabled; a `keyup` with any other key code does nothing
in any state. -/
theorem claim8_keyboard_enter (opts : ActionHandlerOptions) (s : AHState) (k t : Nat) :
    (k ≠ 13 → handleEnter opts s k t = s) ∧
    (opts.hasDoubleClick = false →
      (processEvents opts [(t, DomEvent.keyup 13)] initState).events = ["tap"] ∧
      (run opts [(t, DomEvent.keyup 13)]).events = ["tap"]) ∧
    (opts.hasDoubleClick = true →
      (processEvents opts [(t, DomEvent.keyup 13)] initState).events = [] ∧
      TimerEntry.mk 0 (t + 250) .tapFire ∈
        (processEvents opts [(t, DomEvent.keyup 13)] initState).pending ∧
      (run opts [(t, DomEvent.keyup 13)]).events = ["tap"]) := by
  have h100 : t + 100 < t + 250 := by omega
  refine ⟨?_, ?_, ?_⟩
  · intro hk
    unfold handleEnter
    rw [if_neg hk]
  · intro hdbl
    constructor <;>
      simp [run, processEvents, handleEvent, handleEnter, clickEnd, fireDue, dueTake, dueDrop,
        settle, initState, endGuardTypes, setTimeoutAH, clearTimeoutAH, insertTimer, stepTimer,
        fire, hdbl, h100]
  · intro hdbl
    refine ⟨?_, ?_, ?_⟩ <;>
      simp [run, processEvents, handleEvent, handleEnter, clickEnd, fireDue, dueTake, dueDrop,
        settle, initState, endGuardTypes, setTimeoutAH, clearTimeoutAH, insertTimer, stepTimer,
        fire, hdbl, h100]

/-- Witness for C8: key code 27 does nothing; enter alone fires `tap`
when double-click is off, and fires nothing immediately when
double-click is on. -/
theorem claim8_keyboard_enter_witness :
    handleEnter ⟨false⟩ initState 27 3 = initState ∧
    (run ⟨false⟩ [(3, DomEvent.keyup 13)]).events = ["tap"] ∧
    (processEvents ⟨true⟩ [(3, DomEvent.keyup 13)] initState).events = [] := by
  refine ⟨?_, ?_, ?_⟩
  · exact (claim8_keyboard_enter ⟨false⟩ initState 27 3).1 (by decide)
  · exact ((claim8_keyboard_enter ⟨false⟩ initState 27 3).2.1 rfl).2
  · exact ((claim8_keyboard_enter ⟨true⟩ initState 27 3).2.2 rfl).1

/-- C2: a press-start with no press-end for at least 500ms arms the
hold timer, which fires and marks the gesture held; the subsequent
press-end then yields exactly one `hold` notification and nothing
else. -/
theorem claim2_hold (opts : ActionHandlerOptions) (x y : Int) (d t0 t1 : Nat)
    (h : t0 + 500 ≤ t1) :
    (processEvents opts [(t0, DomEvent.touchstart x y), (t1, DomEvent.touchend d)]
        initState).events = ["hold"] ∧
    (run opts [(t0, DomEvent.touchstart x y), (t1, DomEvent.touchend d)]).events = ["hold"] := by
  have h1 : t0 + 100 ≤ t1 := by omega
  have h2 : t0 + 100 < t0 + 500 := by omega
  constructor <;>
    simp [run, processEvents, handleEvent, clickStart, clickEnd, fireDue, dueTake, dueDrop,
      settle, initState, endGuardTypes, setTimeoutAH, clearTimeoutAH, insertTimer, removeTimer,
      stepTimer, fire, h, h1, h2]

/-- Witness for C2: a touch press at 0 released at 600 yields exactly
one `hold`. -/
theorem claim2_hold_witness :
    0 + 500 ≤ 600 ∧
    (run ⟨false⟩ [(0, DomEvent.touchstart 1 2), (600, DomEvent.touchend 0)]).events = ["hold"] :=
  ⟨by decide, (claim2_hold ⟨false⟩ 1 2 0 0 600 (by decide)).2⟩

/-- C3: with double-click disabled, a press-start followed by a
press-end within 500ms fires exactly one `tap`, immediately (already
present before any timer settles), and never a `hold`. -/
theorem claim3_immediate_tap (opts : ActionHandlerOptions) (x y : Int) (d t0 t1 : Nat)
    (hdbl : opts.hasDoubleClick = false) (h0 : t0 ≤ t1) (h1 : t1 < t0 + 500) :
    (processEvents opts [(t0, DomEvent.mousedown x y), (t1, DomEvent.click d)]
        initState).events = ["tap"] ∧
    (run opts [(t0, DomEvent.mousedown x y), (t1, DomEvent.click d)]).events = ["tap"] ∧
    "hold" ∉ (run opts [(t0, DomEvent.mousedown x y), (t1, DomEvent.click d)]).events := by
  have h2 : t0 + 100 < t0 + 500 := by omega
  have h4 : ¬ (t0 + 500 ≤ t1) := by omega
  have h7 : ¬ (t1 + 100 < t0 + 100) := by omega
  rcases le_or_lt (t0 + 100) t1 with h5 | h5
  · have main : (run opts [(t0, DomEvent.mousedown x y), (t1, DomEvent.click d)]).events
        = ["tap"] := by
      simp [run, processEvents, handleEvent, clickStart, clickEnd, fireDue, dueTake, dueDrop,
        settle, initState, endGuardTypes, setTimeoutAH, clearTimeoutAH, insertTimer, removeTimer,
        stepTimer, fire, hdbl, h2, h4, h5, h7]
    refine ⟨?_, main, ?_⟩
    · simp [processEvents, handleEvent, clickStart, clickEnd, fireDue, dueTake, dueDrop,
        initState, endGuardTypes, setTimeoutAH, clearTimeoutAH, insertTimer, removeTimer,
        stepTimer, fire, hdbl, h2, h4, h5, h7]
    · rw [main]
      decide
  · have h6 : ¬ (t0 + 100 ≤ t1) := by omega
    have main : (run opts [(t0, DomEvent.mousedown x y), (t1, DomEvent.click d)]).events
        = ["tap"] := by
      simp [run, processEvents, handleEvent, clickStart, clickEnd, fireDue, dueTake, dueDrop,
        settle, initState, endGuardTypes, setTimeoutAH, clearTimeoutAH, insertTimer, removeTimer,
        stepTimer, fire, hdbl, h2, h4, h6, h7]
    refine ⟨?_, main, ?_⟩
    · simp [processEvents, handleEvent, clickStart, clickEnd, fireDue, dueTake, dueDrop,
        initState, endGuardTypes, setTimeoutAH, clearTimeoutAH, insertTimer, removeTimer,
        stepTimer, fire, hdbl, h2, h4, h6, h7]
    · rw [main]
      decide

/-- Witness for C3: a mouse press at 0 released at 80 with double-click
disabled fires exactly one immediate `tap`. -/
theorem claim3_immediate_tap_witness :
    (0 : Nat) ≤ 80 ∧ 80 < 0 + 500 ∧
    (run ⟨false⟩ [(0, DomEvent.mousedown 1 2), (80, DomEvent.click 1)]).events = ["tap"] :=
  ⟨by decide, by decide,
    (claim3_immediate_tap ⟨false⟩ 1 2 1 0 80 rfl (by decide) (by decide)).2.1⟩

/-- C6: a second press-start arriving within 100ms of the first is
discarded by the start-cooldown: the state is exactly as if only the
first press-start had happened, and exactly one hold timer is armed. -/
theorem claim6_start_cooldown (opts : ActionHandlerOptions) (x y x2 y2 : Int) (t0 t1 : Nat)
    (h0 : t0 ≤ t1) (h1 : t1 < t0 + 100) :
    processEvents opts [(t0, DomEvent.touchstart x y), (t1, DomEvent.mousedown x2 y2)]
        initState =
      processEvents opts [(t0, DomEvent.touchstart x y)] initState ∧
    ((processEvents opts [(t0, DomEvent.touchstart x y), (t1, DomEvent.mousedown x2 y2)]
        initState).pending.filter isHoldTimer).length = 1 := by
  have h2 : t0 + 100 < t0 + 500 := by omega
  have h3 : ¬ (t0 + 100 ≤ t1) := by omega
  have h4 : ¬ (t0 + 500 ≤ t1) := by omega
  constructor <;>
    simp [processEvents, handleEvent, clickStart, fireDue, dueTake, dueDrop, initState,
      setTimeoutAH, insertTimer, stepTimer, isHoldTimer, h2, h3, h4]

/-- Witness for C6: a touch press at 0 and a synthesized mouse press at
50 leave the same state as the touch press alone, with one hold timer
armed. -/
theorem claim6_start_cooldown_witness :
    (0 : Nat) ≤ 50 ∧ 50 < 0 + 100 ∧
    processEvents ⟨false⟩ [(0, DomEvent.touchstart 1 2), (50, DomEvent.mousedown 3 4)]
        initState =
      processEvents ⟨false⟩ [(0, DomEvent.touchstart 1 2)] initState :=
  ⟨by decide, by decide,
    (claim6_start_cooldown ⟨false⟩ 1 2 3 4 0 50 (by decide) (by decide)).1⟩

/-- C10: the `held` flag is reset only at press-start: the document
cancel listener keeps `held` unchanged, `clickStart` (when not in
cooldown) resets it, and after the hold timer has fired a cancel-class
event followed by a `click` or keyboard-enter release still emits
`hold`. -/
theorem claim10_held_survives_cancel (opts : ActionHandlerOptions) (s : AHState)
    (x y : Int) (d t0 t1 t2 : Nat) (h1 : t0 + 500 ≤ t1) (h2 : t1 ≤ t2) :
    (docCancelListener s).held = s.held ∧
    (s.cooldownStart = false → (clickStart s x y t0).held = false) ∧
    (run opts [(t0, DomEvent.touchstart x y), (t1, DomEvent.cancelClass),
        (t2, DomEvent.click d)]).events = ["hold"] ∧
    (run opts [(t0, DomEvent.touchstart x y), (t1, DomEvent.cancelClass),
        (t2, DomEvent.keyup 13)]).events = ["hold"] := by
  have ha : t0 + 100 ≤ t1 := by omega
  have hb : t0 + 100 < t0 + 500 := by omega
  refine ⟨clearTimeoutAH_held s s.timer, ?_, ?_, ?_⟩
  · intro h
    simp [clickStart, setTimeoutAH, h]
  · simp [run, processEvents, handleEvent, clickStart, clickEnd, handleEnter, docCancelListener,
      fireDue, dueTake, dueDrop, settle, initState, endGuardTypes, setTimeoutAH, clearTimeoutAH,
      insertTimer, removeTimer, stepTimer, fire, h1, ha, hb]
  · simp [run, processEvents, handleEvent, clickStart, clickEnd, handleEnter, docCancelListener,
      fireDue, dueTake, dueDrop, settle, initState, endGuardTypes, setTimeoutAH, clearTimeoutAH,
      insertTimer, removeTimer, stepTimer, fire, h1, ha, hb]

/-- Witness for C10: press at 0, hold fires at 500, a document `scroll`
at 600, release by `click` at 700 — `hold` is still emitted. -/
theorem claim10_held_survives_cancel_witness :
    0 + 500 ≤ 600 ∧ (600 : Nat) ≤ 700 ∧
    (run ⟨false⟩ [(0, DomEvent.touchstart 1 2), (600, DomEvent.cancelClass),
        (700, DomEvent.click 1)]).events = ["hold"] :=
  ⟨by decide, by decide,
    (claim10_held_survives_cancel ⟨false⟩ initState 1 2 1 0 600 700
      (by decide) (by decide)).2.2.1⟩

/-- C5: a cancel-class document event while the hold timer is armed
clears the timer and hides the indicator: afterwards `this.timer` is
`undefined`, no hold timer is pending, and the gesture never reaches
the held state — a following `touchend` produces no notification at
all, so the `hold` is suppressed entirely. -/
theorem claim5_cancel_suppresses_hold (opts : ActionHandlerOptions) (x y : Int)
    (d t0 t1 t2 : Nat) (h0 : t0 ≤ t1) (h1 : t1 < t0 + 500) (h2 : t1 ≤ t2) :
    (processEvents opts [(t0, DomEvent.touchstart x y), (t1, DomEvent.cancelClass)]
        initState).timer = none ∧
    (processEvents opts [(t0, DomEvent.touchstart x y), (t1, DomEvent.cancelClass)]
        initState).indicator = false ∧
    (processEvents opts [(t0, DomEvent.touchstart x y), (t1, DomEvent.cancelClass)]
        initState).pending.filter isHoldTimer = [] ∧
    (run opts [(t0, DomEvent.touchstart x y), (t1, DomEvent.cancelClass),
        (t2, DomEvent.touchend d)]).events = [] ∧
    (run opts [(t0, DomEvent.touchstart x y), (t1, DomEvent.cancelClass),
        (t2, DomEvent.touchend d)]).held = false := by
  have hb : t0 + 100 < t0 + 500 := by omega
  have hc : ¬ (t0 + 500 ≤ t1) := by omega
  rcases le_or_lt (t0 + 100) t1 with ha | ha
  · refine ⟨?_, ?_, ?_, ?_, ?_⟩ <;>
      simp [run, processEvents, handleEvent, clickStart, clickEnd, docCancelListener, fireDue,
        dueTake, dueDrop, settle, initState, endGuardTypes, setTimeoutAH, clearTimeoutAH,
        insertTimer, removeTimer, stepTimer, fire, isHoldTimer, hb, hc, ha]
  · have ha2 : ¬ (t0 + 100 ≤ t1) := by omega
    rcases le_or_lt (t0 + 100) t2 with hcc | hcc
    · refine ⟨?_, ?_, ?_, ?_, ?_⟩ <;>
        simp [run, processEvents, handleEvent, clickStart, clickEnd, docCancelListener, fireDue,
          dueTake, dueDrop, settle, initState, endGuardTypes, setTimeoutAH, clearTimeoutAH,
          insertTimer, removeTimer, stepTimer, fire, isHoldTimer, hb, hc, ha2, hcc]
    · have hcc2 : ¬ (t0 + 100 ≤ t2) := by omega
      refine ⟨?_, ?_, ?_, ?_, ?_⟩ <;>
        simp [run, processEvents, handleEvent, clickStart, clickEnd, docCancelListener, fireDue,
          dueTake, dueDrop, settle, initState, endGuardTypes, setTimeoutAH, clearTimeoutAH,
          insertTimer, removeTimer, stepTimer, fire, isHoldTimer, hb, hc, ha2, hcc2]

/-- Witness for C5: press at 0, document `scroll` at 200, `touchend` at
600 — no notification at all, `held` never set. -/
theorem claim5_cancel_suppresses_hold_witness :
    (0 : Nat) ≤ 200 ∧ 200 < 0 + 500 ∧ (200 : Nat) ≤ 600 ∧
    (run ⟨false⟩ [(0, DomEvent.touchstart 1 2), (200, DomEvent.cancelClass),
        (600, DomEvent.touchend 0)]).events = [] :=
  ⟨by decide, by decide, by decide,
    (claim5_cancel_suppresses_hold ⟨false⟩ 1 2 0 0 200 600
      (by decide) (by decide) (by decide)).2.2.2.1⟩

/-- C1 as stated is false on the code: with double-click enabled, a
second press-start/press-end arriving within the 250ms double-tap
window but within the 100ms end-cooldown of the first press-end is
discarded, so no `double_tap` is produced and the pending delayed `tap`
still fires.  Concretely: press-end at 10ms (first click), second
press-start at 30ms and press-end at 60ms (second click, well inside
the 250ms window) yield a single `tap`, not a `double_tap`. -/
theorem claim1_counterexample :
    (run ⟨true⟩ [(0, DomEvent.mousedown 0 0), (10, DomEvent.click 1),
        (30, DomEvent.mousedown 0 0), (60, DomEvent.click 2)]).events = ["tap"] ∧
    "double_tap" ∉ (run ⟨true⟩ [(0, DomEvent.mousedown 0 0), (10, DomEvent.click 1),
        (30, DomEvent.mousedown 0 0), (60, DomEvent.click 2)]).events := by
  constructor
  · decide
  · decide

set_option maxHeartbeats 3200000 in
/-- C1 amended: with double-click enabled and `held` false at press-end,
a single press-start/press-end schedules the `tap` with a 250ms delay
(nothing is emitted at press-end time, a 250ms tap timer is pending,
and the delayed `tap` fires once the timers run); a second
press-start/press-end whose press-end falls inside the 250ms window
AND at least 100ms after the first press-end (outside the end-cooldown)
cancels the pending delayed `tap` and produces exactly one
`double_tap`. -/
theorem claim1_double_tap (opts : ActionHandlerOptions) (x y x2 y2 : Int)
    (t0 t1 t2 t3 : Nat) (hdbl : opts.hasDoubleClick = true)
    (h01 : t0 ≤ t1) (hheld : t1 < t0 + 500) (h12 : t1 ≤ t2) (h23 : t2 ≤ t3)
    (hcool : t1 + 100 ≤ t3) (hwin : t3 < t1 + 250) :
    (processEvents opts [(t0, DomEvent.mousedown x y), (t1, DomEvent.click 1)]
        initState).events = [] ∧
    TimerEntry.mk 2 (t1 + 250) .tapFire ∈
      (processEvents opts [(t0, DomEvent.mousedown x y), (t1, DomEvent.click 1)]
        initState).pending ∧
    (run opts [(t0, DomEvent.mousedown x y), (t1, DomEvent.click 1)]).events = ["tap"] ∧
    (run opts [(t0, DomEvent.mousedown x y), (t1, DomEvent.click 1),
        (t2, DomEvent.mousedown x2 y2), (t3, DomEvent.click 2)]).events = ["double_tap"] := by
  have hs1 : t0 + 100 < t0 + 500 := by omega
  have hs3 : ¬ (t0 + 500 ≤ t1) := by omega
  have hs4 : ¬ (t1 + 250 < t0 + 100) := by omega
  have hs5 : ¬ (t1 + 100 < t0 + 100) := by omega
  have hs6 : t1 + 100 < t1 + 250 := by omega
  have hs8 : ¬ (t1 + 250 ≤ t2) := by omega
  have hs10 : ¬ (t2 + 500 < t1 + 250) := by omega
  have hs11 : ¬ (t2 + 500 < t1 + 100) := by omega
  have hs12 : ¬ (t2 + 100 < t1 + 100) := by omega
  have hs14 : t2 + 100 < t2 + 500 := by omega
  have hs15 : t1 + 100 ≤ t3 := hcool
  have hs17 : ¬ (t1 + 250 ≤ t3) := by omega
  have hs18 : ¬ (t2 + 500 ≤ t3) := by omega
  have hs19 : t0 + 100 ≤ t3 := by omega
  have hs20 : ¬ (t3 + 100 < t2 + 100) := by omega
  refine ⟨?_, ?_, ?_, ?_⟩
  · by_cases hA : t0 + 100 ≤ t1 <;>
      simp [processEvents, handleEvent, clickStart, clickEnd, fireDue, dueTake,
        dueDrop, initState, endGuardTypes, setTimeoutAH, clearTimeoutAH,
        insertTimer, removeTimer, stepTimer, fire, hdbl, hs1, hs3, hs4, hs5, hs6, hA]
  · by_cases hA : t0 + 100 ≤ t1 <;>
      simp [processEvents, handleEvent, clickStart, clickEnd, fireDue, dueTake,
        dueDrop, initState, endGuardTypes, setTimeoutAH, clearTimeoutAH,
        insertTimer, removeTimer, stepTimer, fire, hdbl, hs1, hs3, hs4, hs5, hs6, hA]
  · by_cases hA : t0 + 100 ≤ t1 <;>
      simp [run, processEvents, handleEvent, clickStart, clickEnd, fireDue, dueTake,
        dueDrop, settle, initState, endGuardTypes, setTimeoutAH, clearTimeoutAH,
        insertTimer, removeTimer, stepTimer, fire, hdbl, hs1, hs3, hs4, hs5, hs6, hA]
  · by_cases hA : t0 + 100 ≤ t1 <;>
      by_cases hB : t1 + 100 ≤ t2 <;>
      by_cases hC : t0 + 100 ≤ t2 <;>
      by_cases hE : t2 + 100 < t1 + 250 <;>
      by_cases hD : t2 + 100 ≤ t3 <;>
      first
      | (exfalso; omega)
      | simp [run, processEvents, handleEvent, clickStart, clickEnd, fireDue, dueTake,
          dueDrop, settle, initState, endGuardTypes, setTimeoutAH, clearTimeoutAH,
          insertTimer, removeTimer, stepTimer, fire, hdbl,
          hs1, hs3, hs4, hs5, hs6, hs8, hs10, hs11, hs12, hs14, hs15, hs17, hs18, hs19,
          hs20, hA, hB, hC, hE, hD]

/-- Witness for C1 amended: clicks released at 10ms and 160ms (inside
the 250ms window, past the 100ms end-cooldown) produce exactly one
`double_tap`; the lone first sequence would have produced the delayed
`tap`. -/
theorem claim1_double_tap_witness :
    10 + 100 ≤ 160 ∧ 160 < 10 + 250 ∧
    (run ⟨true⟩ [(0, DomEvent.mousedown 0 0), (10, DomEvent.click 1),
        (150, DomEvent.mousedown 0 0), (160, DomEvent.click 2)]).events = ["double_tap"] :=
  ⟨by decide, by decide,
    (claim1_double_tap ⟨true⟩ 0 0 0 0 0 10 150 160 rfl (by decide) (by decide)
      (by decide) (by decide) (by decide) (by decide)).2.2.2⟩

end ActionHandlerSpec
